import Mathlib

/-!
Verification of the nodeftpd FTP server core (src/FtpConnection.js,
src/PassiveListenerPool.js) against its natural-language specification.

The JavaScript source is shallowly embedded: pure helpers become Lean
functions over `List Char` / `String`, the per-session mutable state of
`FtpConnection` becomes a `Session` structure threaded through handler
functions, and the listener-pool / passive-connection objects become
explicit state machines.  JavaScript `undefined`/`NaN` numeric values are
modelled as `Option Nat` with `none` standing for NaN (arithmetic on
`undefined` yields NaN and propagates).
-/

namespace NodeFtpd

/-! ## JavaScript string primitives (structural, kernel-evaluable) -/

/-- JS `String.prototype.split(c)` on a character separator.  `split` on the
empty string yields `[""]`, matching JS. -/
def splitOnChar (c : Char) : List Char → List (List Char)
  | [] => [[]]
  | x :: xs =>
    match splitOnChar c xs with
    | [] => [[]]
    | g :: gs => if x = c then [] :: g :: gs else (x :: g) :: gs

/-- JS `Array.prototype.join(c)` for a one-character separator. -/
def joinChar (c : Char) : List (List Char) → List Char
  | [] => []
  | [g] => g
  | g :: gs => g ++ c :: joinChar c gs

/-- JS `String.prototype.trim()`: strip leading and trailing whitespace. -/
def trimChars (cs : List Char) : List Char :=
  ((cs.dropWhile Char.isWhitespace).reverse.dropWhile Char.isWhitespace).reverse

/-- Numeric value of a digit string, as `parseInt(s, 10)` computes it for a
string of decimal digits. -/
def digitsToNat (cs : List Char) : Nat :=
  cs.foldl (fun n c => n * 10 + (c.toNat - 48)) 0

/-- JS addition where either operand may be `undefined`/NaN (`none`):
`number + undefined` is NaN, and NaN propagates. -/
def jsAdd : Option Nat → Option Nat → Option Nat
  | some a, some b => some (a + b)
  | _, _ => none

/-! ## `decodeAddress` / `encodeAddress` (FtpConnection.js lines 18, 28–47) -/

/-- The test `ENCODED_ADDRESS.test(encoded)` for the regex
`^[0-9]{1,3}(,[0-9]{1,3}){5}$`: exactly six comma-separated groups of one
to three decimal digits. -/
def encodedAddressTest (cs : List Char) : Bool :=
  let parts := splitOnChar ',' cs
  parts.length = 6 &&
    parts.all (fun p => decide (1 ≤ p.length) && decide (p.length ≤ 3) && p.all Char.isDigit)

/-- Result object of `decodeAddress`.  The `port` field is a JS number which
may be NaN (`none`). -/
structure DecodedAddress where
  host : String
  port : Option Nat
  deriving DecidableEq

/-- `decodeAddress` (FtpConnection.js lines 34–47).  Note the source computes
`(octets[5] << 8) + octets[6]`; `octets` has exactly six elements (indices
0–5), so `octets[6]` is `undefined` and the sum is NaN (`none`). -/
def decodeAddress (encoded : String) : Option DecodedAddress :=
  let cs := encoded.data
  if encodedAddressTest cs = false then none
  else
    let octets := (splitOnChar ',' cs).map digitsToNat
    if octets.any (fun n => decide (255 < n)) then none
    else
      some { host := ⟨joinChar '.' ((octets.take 4).map (fun n => (toString n).data))⟩,
             port := jsAdd ((octets.get? 5).map (fun n => n <<< 8)) (octets.get? 6) }

/-- `encodeAddress` (FtpConnection.js lines 28–32):
`host.split('.').join(',') + ',' + (port / 256 | 0) + ',' + port % 256`. -/
def encodeAddress (host : String) (port : Nat) : String :=
  ⟨joinChar ',' (splitOnChar '.' host.data) ++ (',' :: (toString (port / 256)).data)
    ++ (',' :: (toString (port % 256)).data)⟩

/-! ## The FTP control-connection session state (FtpConnection.js lines 49–80)

Only the fields touched by the data-channel claims are modelled; the
constructor's initial values are those of the source (`dataPort = 20`,
`dataHost = null`, both PASV/PORT flags false, …).  The `dataConnection`
field holds the passive data connection's port when one is attached
(`null` otherwise); `dataSocket` holds an opaque socket identifier. -/

structure Session where
  dataPort : Option Nat
  dataHost : Option String
  dataConnection : Option Nat
  dataSocket : Option Nat
  isEstablishingDataConnection : Bool
  hasReceivedPASV : Bool
  hasReceivedPORT : Bool
  username : Option String
  secure : Bool
  hasQuit : Bool
  deriving DecidableEq

/-- The `FtpConnection` constructor's initial state. -/
def initialSession : Session :=
  { dataPort := some 20, dataHost := none, dataConnection := none,
    dataSocket := none, isEstablishingDataConnection := false,
    hasReceivedPASV := false, hasReceivedPORT := false,
    username := none, secure := false, hasQuit := false }

/-- `_isAuthenticated` (line 107): `!!this.username`. -/
def isAuthenticated (s : Session) : Bool := s.username.isSome

/-- `_hasReceivedDataConnectionRequest` (lines 115–120). -/
def hasReceivedDataConnectionRequest (s : Session) : Bool :=
  s.isEstablishingDataConnection || s.dataConnection.isSome

/-! ## Command handlers -/

/-- `__PORT` (lines 1030–1045).  After the 503 exclusivity check the source
sets `_hasReceivedPORT = true` *before* parsing.  On a parse failure
(`decodeAddress` returned `null`, so the destructured `host`/`port` are
`undefined` and `== null`) it replies 501; otherwise it stores
`dataHost`/`dataPort` and replies 200.  A NaN `port` is *not* `== null`
under JS loose equality, so it passes the check. -/
def PORT_cmd (s : Session) (arg : String) : Session × List String :=
  if s.hasReceivedPASV || s.hasReceivedPORT then
    (s, ["503 Bad sequence of commands."])
  else
    let s := { s with hasReceivedPORT := true }
    match decodeAddress arg with
    | none => (s, ["501 Bad argument to PORT"])
    | some d =>
      ({ s with dataHost := some d.host, dataPort := d.port }, ["200 OK"])

/-- `__EPRT` (lines 1047–1049) simply delegates to `__PORT`; the
`_parseEPRT` helper is never invoked. -/
def EPRT_cmd (s : Session) (arg : String) : Session × List String :=
  PORT_cmd s arg

/-- `__PASV` (lines 1068–1113), synchronous part: the 503 exclusivity
check, then `_hasReceivedPASV = true` and
`_isEstablishingDataConnection = true`.  The reply is sent later from the
pool callback (`pasvCallbackSuccess` / `pasvCallbackError`). -/
def PASV_cmd (s : Session) : Session × List String :=
  if s.hasReceivedPASV || s.hasReceivedPORT then
    (s, ["503 Bad sequence of commands."])
  else
    ({ s with hasReceivedPASV := true, isEstablishingDataConnection := true }, [])

/-- `__EPSV` (lines 1115–1121): a non-empty argument other than `"1"` gets
`202 Not supported` (before any state check); otherwise it behaves as
`__PASV`. -/
def EPSV_cmd (s : Session) (arg : String) : Session × List String :=
  if ¬(arg = "") ∧ ¬(arg = "1") then (s, ["202 Not supported"])
  else PASV_cmd s

/-- The error branch of the `createDataConnection` callback inside `__PASV`
(lines 1083–1088). -/
def pasvCallbackError (s : Session) : Session × List String :=
  ({ s with isEstablishingDataConnection := false },
   ["421 Server was unable to open passive connection listener"])

/-- The success branch of the `createDataConnection` callback inside
`__PASV` (lines 1089–1097): store the data connection and send the 227
(or 229 for EPSV) reply.  `_isEstablishingDataConnection` is *not* cleared
here. -/
def pasvCallbackSuccess (s : Session) (port : Nat) (isExtendedPASV : Bool)
    (host : String) : Session × List String :=
  ({ s with dataConnection := some port },
   [if isExtendedPASV then
      "229 Entering Extended Passive Mode (|||" ++ toString port ++ "|)"
    else
      "227 Entering Passive Mode (" ++ encodeAddress host port ++ ")"])

/-- `_onDataConnection` (lines 363–395), state effect of the `ready` event:
adopt the socket; if a passive connection was being established, mark it
established. -/
def onDataConnectionReady (s : Session) (sock : Nat) : Session :=
  let s := { s with dataSocket := some sock }
  if s.isEstablishingDataConnection then
    { s with isEstablishingDataConnection := false }
  else s

/-- The `allOver` close/end handler installed by `_onDataConnection`
(lines 376–394): it only nulls `dataSocket` (guarding against a second
call); no other session state is touched. -/
def dataSocketAllOver (s : Session) : Session :=
  if s.dataSocket = none then s else { s with dataSocket := none }

/-- The passive data connection's `close` handler installed by `__PASV`
(lines 1107–1110): it only logs; the session state is untouched. -/
def dataConnectionCloseHandler (s : Session) : Session := s

/-! ## The dispatch gate `_onData` (lines 211–254)

The command-set constants live in `src/Constants.js`, which is not part of
the sources provided; they are modelled from the spec. -/

/-- Modelled from the spec: `Constants.js` (the `COMMANDS_NO_AUTH` table) is
not under src/.  Spec §3: "NO_AUTH (USER, PASS, QUIT, FEAT, AUTH, OPTS,
NOOP, SYST, TYPE, PBSZ, PROT)". -/
def COMMANDS_NO_AUTH : List String :=
  ["USER", "PASS", "QUIT", "FEAT", "AUTH", "OPTS", "NOOP", "SYST", "TYPE",
   "PBSZ", "PROT"]

/-- Modelled from the spec: `Constants.js` (the
`COMMANDS_REQUIRE_DATA_SOCKET` table) is not under src/.  Spec §3:
"REQUIRES_DATA_SOCKET (LIST, NLST, RETR, STOR, APPE)". -/
def COMMANDS_REQUIRE_DATA_SOCKET : List String :=
  ["LIST", "NLST", "RETR", "STOR", "APPE"]

/-- Modelled from the spec: `Constants.js` (the `COMMANDS_SUPPORTED` table)
is not under src/.  Spec §3 "SUPPORTED (full set below)" with the commands
enumerated in §4.F. -/
def COMMANDS_SUPPORTED : List String :=
  ["USER", "PASS", "QUIT", "SYST", "NOOP", "TYPE", "ACCT", "ALLO", "FEAT",
   "OPTS", "PWD", "CWD", "CDUP", "MKD", "RMD", "DELE", "RNFR", "RNTO",
   "SIZE", "MDTM", "PORT", "EPRT", "PASV", "EPSV", "AUTH", "PBSZ", "PROT",
   "LIST", "NLST", "STAT", "RETR", "STOR", "APPE"]

/-- Outcome of the dispatch gate: either an immediate reply, dispatch of the
parsed command to its `__<CMD>` handler, or a silent drop (after QUIT). -/
inductive GateResult where
  | reply (msg : String)
  | dispatch (command arg : String)
  | dropped
  deriving DecidableEq

/-- `_onData` (lines 211–254): parse, then apply the gate chain
(supported/allowed → 502; NO_AUTH → dispatch; tlsOnly ∧ ¬secure → 522;
unauthenticated → 530; requires-data-socket ∧ no request received → 425;
else dispatch). -/
def onData (tlsOnly : Bool) (allowedCommands : Option (List String))
    (s : Session) (line : String) : GateResult :=
  if s.hasQuit then .dropped
  else
    let cs := trimChars line.data
    let parts := splitOnChar ' ' cs
    let command : String := ⟨(parts.headD []).map Char.toUpper⟩
    let commandArg : String := ⟨trimChars (joinChar ' ' parts.tail)⟩
    if (!(COMMANDS_SUPPORTED.contains command) ||
        (match allowedCommands with
         | some allowed => !(allowed.contains command)
         | none => false)) = true then
      .reply "502 Command not implemented."
    else if COMMANDS_NO_AUTH.contains command then
      .dispatch command commandArg
    else if ¬s.secure ∧ tlsOnly then
      .reply "522 Protection level not sufficient; send AUTH TLS"
    else if ¬(isAuthenticated s) then
      .reply "530 Not logged in."
    else if COMMANDS_REQUIRE_DATA_SOCKET.contains command ∧
        ¬(hasReceivedDataConnectionRequest s) then
      .reply "425 Data connection not configured; send PASV or PORT"
    else
      .dispatch command commandArg

/-! ## PassiveListenerPool.js: Listener (lines 129–271)

`_waitingConnections` is a JS `Map` keyed by `port + '|' + remoteAddress`;
it is modelled as an association list with unique keys, and connections are
identified by numeric ids handed out by the listener. -/

/-- JS `Map.prototype.get`/`has` on the association-list model. -/
def mapLookup (k : String) : List (String × Nat) → Option Nat
  | [] => none
  | (k₂, v) :: rest => if k₂ = k then some v else mapLookup k rest

/-- JS `Map.prototype.delete` on the association-list model (keys are
unique, so removing every entry with the key equals removing the one). -/
def mapDelete (k : String) : List (String × Nat) → List (String × Nat)
  | [] => []
  | (k₂, v) :: rest => if k₂ = k then mapDelete k rest else (k₂, v) :: mapDelete k rest

inductive ListenerLifecycle where
  | INITIALIZING
  | LISTENING
  | CLOSED
  deriving DecidableEq

/-- The key `port + '|' + remoteAddress` (lines 146, 218). -/
def lkey (port : Nat) (remoteAddress : String) : String :=
  toString port ++ "|" ++ remoteAddress

structure ListenerS where
  port : Nat
  state : ListenerLifecycle
  waiting : List (String × Nat)
  allConnections : List Nat
  nextConnId : Nat
  deriving DecidableEq

/-- Events scheduled (via `process.nextTick` or synchronously) on a passive
data connection by the listener. -/
inductive ListenEvent where
  | listenerError (connId : Nat) (code : String)
  | listenerReady (connId : Nat)
  deriving DecidableEq

/-- `Listener.listenForClient` (lines 144–186): construct a fresh
connection; if a waiter already exists under the key, schedule a synthetic
`listenerError` with code `EADDRINUSE` on it and change nothing else;
otherwise record it in `_allConnections` and `_waitingConnections` and,
depending on the listener state, schedule `listenerReady` (LISTENING),
start the server (CLOSED → INITIALIZING), or do nothing (INITIALIZING). -/
def listenForClient (L : ListenerS) (remoteAddress : String) :
    ListenerS × Nat × List ListenEvent :=
  let key := lkey L.port remoteAddress
  let connId := L.nextConnId
  if (mapLookup key L.waiting).isSome then
    ({ L with nextConnId := connId + 1 }, connId,
     [.listenerError connId "EADDRINUSE"])
  else
    let L₂ := { L with
      nextConnId := connId + 1
      allConnections := L.allConnections ++ [connId]
      waiting := L.waiting ++ [(key, connId)] }
    match L.state with
    | .LISTENING => (L₂, connId, [.listenerReady connId])
    | .CLOSED => ({ L₂ with state := .INITIALIZING }, connId, [])
    | .INITIALIZING => (L₂, connId, [])

/-- An accepted TCP socket.  Node's `socket.address()` returns the socket's
*local* (bound) address; `socket.remoteAddress` is the peer's address. -/
structure AcceptedSocket where
  localAddress : String
  remoteAddress : String
  deriving DecidableEq

/-- The IPv4-mapped-IPv6 unwrapping in `_onConnection` (lines 215–217):
if the address contains a colon, keep the last colon-separated field. -/
def unwrapAddress (a : String) : String :=
  if a.data.contains ':' then ⟨(splitOnChar ':' a.data).getLastD a.data⟩
  else a

inductive ConnOutcome where
  | installedSocket (connId : Nat)
  | destroyedSocket
  deriving DecidableEq

/-- `Listener._onConnection` (lines 213–226).  The source reads
`socket.address().address` — the accepted socket's local address — into a
variable named `remoteAddress`, unwraps a colon form, and looks the key up
in `_waitingConnections`; a miss destroys the socket, a hit removes the
waiter and calls `setSocket`. -/
def onConnection (L : ListenerS) (sock : AcceptedSocket) :
    ListenerS × ConnOutcome :=
  let addr := unwrapAddress sock.localAddress
  let key := lkey L.port addr
  match mapLookup key L.waiting with
  | none => (L, .destroyedSocket)
  | some c => ({ L with waiting := mapDelete key L.waiting }, .installedSocket c)

/-! ## PassiveListenerPool.createDataConnection (lines 283–310) -/

/-- What happens on one port when `listenForClient` is tried there: the
connection signals `listenerReady`, or a (possibly synthetic) `EADDRINUSE`
`listenerError`, or a `listenerError` with some other code. -/
inductive PortOutcome where
  | ready
  | addrInUse
  | failure (code : String)
  deriving DecidableEq

inductive PoolResult where
  | ok (port : Nat)
  | error (code : String)
  deriving DecidableEq

/-- The retry loop of `createDataConnection`: `onError` increments the port
and retries while the code is `EADDRINUSE` and `port < maxPort`; any other
error (or `EADDRINUSE` at the top of the range) is passed to the caller;
`onSuccess` reports the connection. -/
def createLoop (outcome : Nat → PortOutcome) (maxPort : Nat) (port : Nat) :
    PoolResult :=
  match outcome port with
  | .ready => .ok port
  | .failure c => .error c
  | .addrInUse =>
    if h : port < maxPort then createLoop outcome maxPort (port + 1)
    else .error "EADDRINUSE"
termination_by maxPort - port
decreasing_by omega

/-- `createDataConnection` (lines 283–310) starts the loop at `minPort`. -/
def createDataConnection (outcome : Nat → PortOutcome)
    (minPort maxPort : Nat) : PoolResult :=
  createLoop outcome maxPort minPort

/-! ## PassiveDataConnection (lines 36–127)

A timed state machine: construction arms a `setTimeout` for
`WAIT_TIMEOUT` ms; `setSocket` clears it (the non-TLS path is modelled —
`useTLS: false`); the timeout handler runs `_onError` (emit `error`, then
`_close` on the next tick); `_close` is idempotent and emits `close`
exactly once. -/

/-- `WAIT_TIMEOUT` (PassiveListenerPool.js line 15). -/
def WAIT_TIMEOUT : Nat := 9000

inductive ConnectionLifecycle where
  | WAITING
  | INITIALIZING_TLS
  | READY
  | CLOSED
  deriving DecidableEq

inductive PEvent where
  | errorTimeout
  | readyEvent (sock : Nat)
  | closeEvent
  deriving DecidableEq

structure PDC where
  state : ConnectionLifecycle
  timerDeadline : Option Nat
  socket : Option Nat
  events : List PEvent
  deriving DecidableEq

/-- The `PassiveDataConnection` constructor (lines 37–54): state WAITING,
timer armed to fire `WAIT_TIMEOUT` ms after construction. -/
def newPDC : PDC :=
  { state := .WAITING, timerDeadline := some WAIT_TIMEOUT, socket := none,
    events := [] }

/-- `_close` (lines 120–126): idempotent transition to CLOSED emitting
`close` once. -/
def closeStep (c : PDC) : PDC :=
  if c.state = .CLOSED then c
  else { c with state := .CLOSED, events := c.events ++ [.closeEvent] }

/-- `_onError` (lines 115–118): emit `error`, then `_close` on next tick. -/
def onErrorStep (c : PDC) (e : PEvent) : PDC :=
  closeStep { c with events := c.events ++ [e] }

/-- The `setTimeout` callback firing at time `t` (ms since construction):
only has an effect if the timer is still armed and its deadline has
passed. -/
def timerFire (t : Nat) (c : PDC) : PDC :=
  match c.timerDeadline with
  | some d => if d ≤ t then onErrorStep { c with timerDeadline := none } .errorTimeout else c
  | none => c

/-- `setSocket` (lines 62–83), non-TLS path: `clearTimeout`, adopt the
socket, state READY, emit `ready`.  (The source throws if a socket was
already installed; that leaves the state unchanged here.) -/
def setSocket (sock : Nat) (c : PDC) : PDC :=
  if c.socket.isSome then c
  else { c with
    timerDeadline := none
    socket := some sock
    state := .READY
    events := c.events ++ [.readyEvent sock] }

/-- `destroy` (lines 107–113): with a live socket, destroying it emits its
`close` which runs `_close`; without one, `_close` directly. -/
def destroyStep (c : PDC) : PDC := closeStep c

inductive PAction where
  | fire (t : Nat)
  | install (sock : Nat)
  | destroy
  deriving DecidableEq

def pstep (c : PDC) : PAction → PDC
  | .fire t => timerFire t c
  | .install sock => setSocket sock c
  | .destroy => destroyStep c

def prun (c : PDC) (acts : List PAction) : PDC := acts.foldl pstep c

/-- Occurrence count of an event in an emission trace. -/
def countEv (e : PEvent) : List PEvent → Nat
  | [] => 0
  | x :: xs => (if x = e then 1 else 0) + countEv e xs

/-! ## `_parseEPRT` (FtpConnection.js lines 334–360)

This helper implements the EPRT checks (522 for address family 2, 501 for
an out-of-range port) but is never invoked: `__EPRT` delegates straight to
`__PORT`.  It is embedded to compare its replies with the ones the server
actually produces. -/

inductive EprtResult where
  | reply (msg : String)
  | okAddr (host : String) (port : Nat)
  deriving DecidableEq

/-- The guard `commandArg.length >= 3 && charAt(0) === '|' &&
charAt(2) === '|' && charAt(1) === '2'`. -/
def eprtFamilyCheck (cs : List Char) : Bool :=
  match cs with
  | a :: b :: c :: _ => a = '|' && c = '|' && b = '2'
  | _ => false

/-- One `[0-9]{1,3}` group: a leading digit run of length 1–3 (the next
character in the pattern is a non-digit, so greedy matching with
backtracking accepts exactly the full digit run when its length fits). -/
def parseHostGroup (cs : List Char) : Option (List Char × List Char) :=
  let d := cs.takeWhile Char.isDigit
  if 1 ≤ d.length ∧ d.length ≤ 3 then some (d, cs.dropWhile Char.isDigit)
  else none

/-- `n` dot-separated `[0-9]{1,3}` groups. -/
def parseQuad : Nat → List Char → Option (List (List Char) × List Char)
  | 0, cs => some ([], cs)
  | n + 1, cs =>
    match parseHostGroup cs with
    | none => none
    | some (g, rest) =>
      if n = 0 then some ([g], rest)
      else
        match rest with
        | '.' :: rest₂ =>
          match parseQuad n rest₂ with
          | none => none
          | some (gs, rest₃) => some (g :: gs, rest₃)
        | _ => none

/-- The regex
`^\|1\|([0-9]{1,3}\.[0-9]{1,3}\.[0-9]{1,3}\.[0-9]{1,3})\|([0-9]{1,5})`:
not anchored at the end, so the port group greedily takes at most five
leading digits and trailing characters are ignored. -/
def eprtRegexMatch (cs : List Char) : Option (String × Nat) :=
  match cs with
  | '|' :: '1' :: '|' :: rest =>
    match parseQuad 4 rest with
    | none => none
    | some (gs, rest₂) =>
      match rest₂ with
      | '|' :: rest₃ =>
        let d := rest₃.takeWhile Char.isDigit
        if d.length = 0 then none
        else some (⟨joinChar '.' gs⟩, digitsToNat (d.take 5))
      | _ => none
  | _ => none

/-- `_parseEPRT` (lines 334–360). -/
def parseEPRT (commandArg : String) : EprtResult :=
  if eprtFamilyCheck commandArg.data then
    .reply "522 Server cannot handle IPv6 EPRT commands, use (1)"
  else
    match eprtRegexMatch commandArg.data with
    | none => .reply "501 Bad Argument to EPRT"
    | some (host, r) =>
      if 65535 < r ∨ r ≤ 0 then
        .reply "501 Bad argument to EPRT (invalid port number)"
      else .okAddr host r

/-! ## Concrete states used by the claim theorems and witnesses -/

/-- A freshly connected, authenticated session (after USER/PASS; the login
machinery does not touch the data-channel sub-state). -/
def authSession : Session := { initialSession with username := some "alice" }

/-- The session right after a `PORT 127,0,0,1,20,0` that was answered
`200 OK`. -/
def afterPortSession : Session := (PORT_cmd authSession "127,0,0,1,20,0").1

/-- The session right after a `PORT z` that was answered `501`. -/
def afterBadPortSession : Session := (PORT_cmd authSession "z").1

/-- The session after a full passive transfer: PASV accepted, pool callback
succeeded (227 sent), client dialled in (`ready`), transfer completed and
the data socket closed (`allOver`), and the passive data connection
reported `close`. -/
def afterTransferSession : Session :=
  dataConnectionCloseHandler
    (dataSocketAllOver
      (onDataConnectionReady
        ((pasvCallbackSuccess ((PASV_cmd authSession).1) 44001 false "127.0.0.1").1) 5))

/-- A listener on port 44001 with one waiter for remote IP 203.0.113.5. -/
def demoListener : ListenerS :=
  { port := 44001, state := .LISTENING,
    waiting := [(lkey 44001 "203.0.113.5", 7)], allConnections := [7],
    nextConnId := 8 }

/-- Port-outcome pattern for the pool witness: every port below `n` already
has a waiter for the requesting address (synthetic `EADDRINUSE`); ports
from `n` up bind fine. -/
def busyBelow (n : Nat) : Nat → PortOutcome :=
  fun q => if q < n then .addrInUse else .ready

/-- Port-outcome pattern where the first free port fails with a
non-`EADDRINUSE` error. -/
def busyThenFail (n : Nat) : Nat → PortOutcome :=
  fun q => if q < n then .addrInUse else .failure "EACCES"

/-- Whether an action is a socket installation. -/
def isInstall : PAction → Bool
  | .install _ => true
  | _ => false

/-! ## Helper lemmas -/

theorem mapLookup_none_not_mem (k : String) (l : List (String × Nat))
    (h : mapLookup k l = none) : k ∉ l.map Prod.fst := by
  induction l with
  | nil => simp
  | cons hd tl ih =>
    obtain ⟨k₂, v⟩ := hd
    by_cases hk : k₂ = k
    · simp [mapLookup, hk] at h
    · simp only [mapLookup, if_neg hk] at h
      simp only [List.map_cons, List.mem_cons, not_or]
      exact ⟨fun hc => hk hc.symm, ih h⟩

/-! ## Claim theorems -/

/-- C1: the spec says a valid `h1,h2,h3,h4,p1,p2` PORT argument decodes to
port `p1*256 + p2` stored in `dataPort` before the 200 reply.  The source
computes `(octets[5] << 8) + octets[6]`; `octets` has six elements, so
`octets[6]` is `undefined` and the stored port is NaN (`none`), not
`20*256 + 0 = 5120`, even though the host is stored correctly and `200 OK`
is sent. -/
theorem c1_port_decodes_to_nan :
    decodeAddress "127,0,0,1,20,0" = some { host := "127.0.0.1", port := none } ∧
    (PORT_cmd authSession "127,0,0,1,20,0").2 = ["200 OK"] ∧
    (PORT_cmd authSession "127,0,0,1,20,0").1.dataHost = some "127.0.0.1" ∧
    (PORT_cmd authSession "127,0,0,1,20,0").1.dataPort = none ∧
    ¬((PORT_cmd authSession "127,0,0,1,20,0").1.dataPort = some (20 * 256 + 0)) := by
  decide

/-- C2: the spec says the Listener demultiplexes an accepted socket by its
*remote* IP.  `_onConnection` reads `socket.address().address` — the
socket's local (bound) address — so a socket arriving from 203.0.113.5 on
a listener bound to 0.0.0.0 misses the waiter registered for 203.0.113.5
and is destroyed, leaving the waiter in place; the unwrapping itself, and
the lookup by the true remote IP, would have found it. -/
theorem c2_demux_reads_local_address :
    (onConnection demoListener
        { localAddress := "0.0.0.0", remoteAddress := "203.0.113.5" }).2 =
      .destroyedSocket ∧
    (onConnection demoListener
        { localAddress := "0.0.0.0", remoteAddress := "203.0.113.5" }).1 =
      demoListener ∧
    mapLookup (lkey 44001 (unwrapAddress "203.0.113.5")) demoListener.waiting =
      some 7 ∧
    unwrapAddress "::ffff:203.0.113.5" = "203.0.113.5" := by
  decide

/-- C3: the spec says every transfer termination resets the data sub-state
to NONE so the next PASV/PORT is accepted.  No code path ever clears
`_hasReceivedPASV`/`_hasReceivedPORT`: after a complete passive transfer
(PASV, 227, client dial-in, data socket closed, connection closed) the
PASV flag is still set and both a second PASV and a PORT are refused with
503. -/
theorem c3_substate_never_reset :
    afterTransferSession.dataSocket = none ∧
    afterTransferSession.hasReceivedPASV = true ∧
    (PASV_cmd afterTransferSession).2 = ["503 Bad sequence of commands."] ∧
    (PORT_cmd afterTransferSession "127,0,0,1,20,0").2 =
      ["503 Bad sequence of commands."] ∧
    (EPSV_cmd afterTransferSession "").2 = ["503 Bad sequence of commands."] := by
  decide

/-- C4: the spec says the 425 gate fires exactly when the data sub-state is
NONE, so a data command after a successful PORT is dispatched.  The gate
`_hasReceivedDataConnectionRequest` only checks
`_isEstablishingDataConnection`/`dataConnection` — PORT sets neither — so
after `PORT 127,0,0,1,20,0` → `200 OK` both LIST and RETR are refused
with 425 instead of being dispatched. -/
theorem c4_gate_refuses_after_port :
    (PORT_cmd authSession "127,0,0,1,20,0").2 = ["200 OK"] ∧
    afterPortSession.hasReceivedPORT = true ∧
    hasReceivedDataConnectionRequest afterPortSession = false ∧
    onData false none afterPortSession "LIST" =
      .reply "425 Data connection not configured; send PASV or PORT" ∧
    onData false none afterPortSession "RETR file.txt" =
      .reply "425 Data connection not configured; send PASV or PORT" := by
  decide

/-- C5 counterexample: with the sub-state out of NONE (a PORT was accepted),
the command `EPSV 2` is answered `202 Not supported`, not 503 — `__EPSV`
replies 202 for any argument other than empty or `"1"` before the
exclusivity check runs. -/
theorem c5_epsv_answers_202 :
    afterPortSession.hasReceivedPORT = true ∧
    (EPSV_cmd afterPortSession "2").2 = ["202 Not supported"] ∧
    ¬((EPSV_cmd afterPortSession "2").2 = ["503 Bad sequence of commands."]) := by
  decide

/-- C5 amended: once the data sub-state has left NONE, every further PASV,
PORT, EPRT, and every EPSV with an empty or `"1"` argument, is answered
503 until a transfer completes (the flags are in fact never cleared);
EPSV with any other argument is answered `202 Not supported` regardless
of the sub-state. -/
theorem c5_pasv_port_exclusivity (s : Session)
    (h : s.hasReceivedPASV = true ∨ s.hasReceivedPORT = true) :
    (PASV_cmd s).2 = ["503 Bad sequence of commands."] ∧
    (∀ arg, (PORT_cmd s arg).2 = ["503 Bad sequence of commands."]) ∧
    (∀ arg, (EPRT_cmd s arg).2 = ["503 Bad sequence of commands."]) ∧
    (EPSV_cmd s "").2 = ["503 Bad sequence of commands."] ∧
    (EPSV_cmd s "1").2 = ["503 Bad sequence of commands."] ∧
    (∀ arg, ¬(arg = "") → ¬(arg = "1") →
      (EPSV_cmd s arg).2 = ["202 Not supported"]) := by
  have hb : (s.hasReceivedPASV || s.hasReceivedPORT) = true := by
    rcases h with h | h <;> simp [h]
  refine ⟨?_, ?_, ?_, ?_, ?_, ?_⟩
  · simp [PASV_cmd, hb]
  · intro arg; simp [PORT_cmd, hb]
  · intro arg; simp [EPRT_cmd, PORT_cmd, hb]
  · show (EPSV_cmd s "").2 = _
    unfold EPSV_cmd
    rw [if_neg (by decide)]
    simp [PASV_cmd, hb]
  · show (EPSV_cmd s "1").2 = _
    unfold EPSV_cmd
    rw [if_neg (by decide)]
    simp [PASV_cmd, hb]
  · intro arg h1 h2
    unfold EPSV_cmd
    rw [if_pos ⟨h1, h2⟩]

/-- C5 witness: the amended exclusivity at the session after an accepted
PORT. -/
theorem c5_pasv_port_exclusivity_witness :
    (afterPortSession.hasReceivedPASV = true ∨
      afterPortSession.hasReceivedPORT = true) ∧
    (PASV_cmd afterPortSession).2 = ["503 Bad sequence of commands."] ∧
    (PORT_cmd afterPortSession "1,2,3,4,5,6").2 =
      ["503 Bad sequence of commands."] ∧
    (EPSV_cmd afterPortSession "ALL").2 = ["202 Not supported"] :=
  ⟨Or.inr (by decide),
   (c5_pasv_port_exclusivity afterPortSession (Or.inr (by decide))).1,
   (c5_pasv_port_exclusivity afterPortSession (Or.inr (by decide))).2.1
     "1,2,3,4,5,6",
   (c5_pasv_port_exclusivity afterPortSession (Or.inr (by decide))).2.2.2.2.2
     "ALL" (by decide) (by decide)⟩

/-- C9: the spec says EPRT with address family 2 gets 522 and an
out-of-range port gets 501 (invalid port).  `__EPRT` delegates to
`__PORT`, so family-2 arguments get the generic `501 Bad argument to
PORT` — never 522 — although the never-invoked `_parseEPRT` helper would
have replied 522 (and 501 for port 70000); and a PORT argument with port
0 (not positive) is accepted with `200 OK` instead of 501 because the
NaN-valued decoded port passes the null check. -/
theorem c9_eprt_checks_not_reached :
    (EPRT_cmd authSession "|2|::1|1234|").2 = ["501 Bad argument to PORT"] ∧
    ¬((EPRT_cmd authSession "|2|::1|1234|").2 =
      ["522 Server cannot handle IPv6 EPRT commands, use (1)"]) ∧
    parseEPRT "|2|::1|1234|" =
      .reply "522 Server cannot handle IPv6 EPRT commands, use (1)" ∧
    (EPRT_cmd authSession "|1|127.0.0.1|70000|").2 =
      ["501 Bad argument to PORT"] ∧
    parseEPRT "|1|127.0.0.1|70000|" =
      .reply "501 Bad argument to EPRT (invalid port number)" ∧
    parseEPRT "|1|127.0.0.1|8080|" = .okAddr "127.0.0.1" 8080 ∧
    (PORT_cmd authSession "1,2,3,4,0,0").2 = ["200 OK"] ∧
    ¬((PORT_cmd authSession "1,2,3,4,0,0").2 = ["501 Bad argument to PORT"]) := by
  decide

/-- C10 counterexample: after a `PORT z` answered 501 the PORT-received
flag is indeed set, but the subsequent `EPSV 2` is answered
`202 Not supported`, not 503, so "every subsequent PASV, EPSV, PORT or
EPRT is refused with 503" fails as stated. -/
theorem c10_epsv_after_failed_port :
    (PORT_cmd authSession "z").2 = ["501 Bad argument to PORT"] ∧
    afterBadPortSession.hasReceivedPORT = true ∧
    (EPSV_cmd afterBadPortSession "2").2 = ["202 Not supported"] ∧
    ¬((EPSV_cmd afterBadPortSession "2").2 =
      ["503 Bad sequence of commands."]) := by
  decide

/-- C10 amended: a PORT whose argument fails to parse (answered 501) still
marks PORT as received before validation and stores no address, so every
subsequent PASV, PORT, EPRT, and every EPSV with an empty or `"1"`
argument, on that session is refused with 503. -/
theorem c10_failed_port_poisons_substate (s : Session) (arg : String)
    (hA : s.hasReceivedPASV = false) (hB : s.hasReceivedPORT = false)
    (hbad : decodeAddress arg = none) :
    (PORT_cmd s arg).2 = ["501 Bad argument to PORT"] ∧
    (PORT_cmd s arg).1.hasReceivedPORT = true ∧
    (PORT_cmd s arg).1.dataHost = s.dataHost ∧
    (PORT_cmd s arg).1.dataPort = s.dataPort ∧
    (PASV_cmd (PORT_cmd s arg).1).2 = ["503 Bad sequence of commands."] ∧
    (∀ a, (PORT_cmd (PORT_cmd s arg).1 a).2 =
      ["503 Bad sequence of commands."]) ∧
    (∀ a, (EPRT_cmd (PORT_cmd s arg).1 a).2 =
      ["503 Bad sequence of commands."]) ∧
    (EPSV_cmd (PORT_cmd s arg).1 "").2 = ["503 Bad sequence of commands."] ∧
    (EPSV_cmd (PORT_cmd s arg).1 "1").2 = ["503 Bad sequence of commands."] := by
  have hstep : PORT_cmd s arg =
      ({ s with hasReceivedPORT := true }, ["501 Bad argument to PORT"]) := by
    simp [PORT_cmd, hA, hB, hbad]
  refine ⟨?_, ?_, ?_, ?_, ?_, ?_, ?_, ?_, ?_⟩
  · rw [hstep]
  · rw [hstep]
  · rw [hstep]
  · rw [hstep]
  · rw [hstep]; simp [PASV_cmd]
  · intro a; rw [hstep]; simp [PORT_cmd]
  · intro a; rw [hstep]; simp [EPRT_cmd, PORT_cmd]
  · rw [hstep]
    unfold EPSV_cmd
    rw [if_neg (by decide)]
    simp [PASV_cmd]
  · rw [hstep]
    unfold EPSV_cmd
    rw [if_neg (by decide)]
    simp [PASV_cmd]

/-- C10 witness: the amended behaviour on the authenticated initial session
and the unparseable argument `"z"`. -/
theorem c10_failed_port_poisons_substate_witness :
    authSession.hasReceivedPASV = false ∧
    authSession.hasReceivedPORT = false ∧
    decodeAddress "z" = none ∧
    (PORT_cmd authSession "z").2 = ["501 Bad argument to PORT"] ∧
    (PASV_cmd (PORT_cmd authSession "z").1).2 =
      ["503 Bad sequence of commands."] :=
  ⟨rfl, rfl, by decide,
   (c10_failed_port_poisons_substate authSession "z" rfl rfl (by decide)).1,
   (c10_failed_port_poisons_substate authSession "z" rfl rfl
     (by decide)).2.2.2.2.1⟩

/-- C6: a `listenForClient` call for a `(port, remoteIP)` that already has a
waiter leaves the waiter map, the connection set and the listener (and so
its bound socket) untouched and schedules a synthetic `listenerError` with
code `EADDRINUSE` on the freshly returned connection; and `listenForClient`
preserves uniqueness of the waiter keys, so at most one connection waits
per `(port, remoteIP)`. -/
theorem c6_listener_key_uniqueness :
    (∀ (L : ListenerS) (r : String),
        (mapLookup (lkey L.port r) L.waiting).isSome = true →
        (listenForClient L r).1.waiting = L.waiting ∧
        (listenForClient L r).1.allConnections = L.allConnections ∧
        (listenForClient L r).1.state = L.state ∧
        (listenForClient L r).2.2 =
          [ListenEvent.listenerError (listenForClient L r).2.1 "EADDRINUSE"]) ∧
    (∀ (L : ListenerS) (r : String),
        (L.waiting.map Prod.fst).Nodup →
        ((listenForClient L r).1.waiting.map Prod.fst).Nodup) := by
  constructor
  · intro L r h
    simp [listenForClient, h]
  · intro L r hnd
    by_cases hk : (mapLookup (lkey L.port r) L.waiting).isSome = true
    · simp [listenForClient, hk, hnd]
    · have hnone : mapLookup (lkey L.port r) L.waiting = none := by
        cases hc : mapLookup (lkey L.port r) L.waiting
        · rfl
        · rw [hc] at hk; simp at hk
      have hnm := mapLookup_none_not_mem _ _ hnone
      cases hst : L.state <;>
        simp [listenForClient, hk, hst, List.nodup_append, hnd, hnm]

/-- C6 witness: the collision behaviour and key uniqueness at the listener
holding one waiter for 203.0.113.5. -/
theorem c6_listener_key_uniqueness_witness :
    (mapLookup (lkey demoListener.port "203.0.113.5")
      demoListener.waiting).isSome = true ∧
    (listenForClient demoListener "203.0.113.5").1.waiting =
      demoListener.waiting ∧
    (listenForClient demoListener "203.0.113.5").2.2 =
      [ListenEvent.listenerError
        (listenForClient demoListener "203.0.113.5").2.1 "EADDRINUSE"] ∧
    ((listenForClient demoListener "203.0.113.5").1.waiting.map
      Prod.fst).Nodup :=
  ⟨by decide,
   (c6_listener_key_uniqueness.1 demoListener "203.0.113.5" (by decide)).1,
   (c6_listener_key_uniqueness.1 demoListener "203.0.113.5" (by decide)).2.2.2,
   c6_listener_key_uniqueness.2 demoListener "203.0.113.5" (by decide)⟩

/-! Helper lemmas for the pool retry loop. -/

theorem createLoop_reaches_ready (outcome : Nat → PortOutcome)
    (maxPort p start : Nat) (h1 : start ≤ p) (h2 : p ≤ maxPort)
    (h3 : ∀ q, start ≤ q → q < p → outcome q = PortOutcome.addrInUse)
    (h4 : outcome p = PortOutcome.ready) :
    createLoop outcome maxPort start = PoolResult.ok p := by
  by_cases hsp : start = p
  · subst hsp
    unfold createLoop
    rw [h4]
  · have hlt : start < p := Nat.lt_of_le_of_ne h1 hsp
    have hbusy : outcome start = PortOutcome.addrInUse :=
      h3 start (Nat.le_refl start) hlt
    have hmax : start < maxPort := Nat.lt_of_lt_of_le hlt h2
    unfold createLoop
    rw [hbusy]
    simp only [dif_pos hmax]
    exact createLoop_reaches_ready outcome maxPort p (start + 1) hlt h2
      (fun q hq1 hq2 => h3 q (Nat.le_trans (Nat.le_succ start) hq1) hq2) h4
termination_by p - start
decreasing_by omega

theorem createLoop_exhausts (outcome : Nat → PortOutcome)
    (maxPort start : Nat) (h2 : start ≤ maxPort)
    (h3 : ∀ q, start ≤ q → q ≤ maxPort → outcome q = PortOutcome.addrInUse) :
    createLoop outcome maxPort start = PoolResult.error "EADDRINUSE" := by
  have hbusy := h3 start (Nat.le_refl start) h2
  unfold createLoop
  rw [hbusy]
  by_cases hm : start < maxPort
  · simp only [dif_pos hm]
    exact createLoop_exhausts outcome maxPort (start + 1) hm
      (fun q hq1 hq2 => h3 q (Nat.le_trans (Nat.le_succ start) hq1) hq2)
  · simp only [dif_neg hm]
termination_by maxPort - start
decreasing_by omega

theorem createLoop_surfaces_failure (outcome : Nat → PortOutcome)
    (maxPort p start : Nat) (c : String) (h1 : start ≤ p) (h2 : p ≤ maxPort)
    (h3 : ∀ q, start ≤ q → q < p → outcome q = PortOutcome.addrInUse)
    (h4 : outcome p = PortOutcome.failure c) :
    createLoop outcome maxPort start = PoolResult.error c := by
  by_cases hsp : start = p
  · subst hsp
    unfold createLoop
    rw [h4]
  · have hlt : start < p := Nat.lt_of_le_of_ne h1 hsp
    have hbusy : outcome start = PortOutcome.addrInUse :=
      h3 start (Nat.le_refl start) hlt
    have hmax : start < maxPort := Nat.lt_of_lt_of_le hlt h2
    unfold createLoop
    rw [hbusy]
    simp only [dif_pos hmax]
    exact createLoop_surfaces_failure outcome maxPort p (start + 1) c hlt h2
      (fun q hq1 hq2 => h3 q (Nat.le_trans (Nat.le_succ start) hq1) hq2) h4
termination_by p - start
decreasing_by omega

/-- C7: `createDataConnection` starts at `minPort` and retries on
`EADDRINUSE` while below `maxPort`, so (i) it succeeds on the smallest
port in `[minPort, maxPort]` whose `listenForClient` is not refused with
`EADDRINUSE`, (ii) if every port in the range is busy it surfaces the
`EADDRINUSE` error, and (iii) a non-`EADDRINUSE` error is surfaced
immediately. -/
theorem c7_pool_port_scan :
    (∀ (outcome : Nat → PortOutcome) (minPort maxPort p : Nat),
        minPort ≤ p → p ≤ maxPort →
        (∀ q, minPort ≤ q → q < p → outcome q = PortOutcome.addrInUse) →
        outcome p = PortOutcome.ready →
        createDataConnection outcome minPort maxPort = PoolResult.ok p) ∧
    (∀ (outcome : Nat → PortOutcome) (minPort maxPort : Nat),
        minPort ≤ maxPort →
        (∀ q, minPort ≤ q → q ≤ maxPort → outcome q = PortOutcome.addrInUse) →
        createDataConnection outcome minPort maxPort =
          PoolResult.error "EADDRINUSE") ∧
    (∀ (outcome : Nat → PortOutcome) (minPort maxPort p : Nat) (c : String),
        minPort ≤ p → p ≤ maxPort →
        (∀ q, minPort ≤ q → q < p → outcome q = PortOutcome.addrInUse) →
        outcome p = PortOutcome.failure c →
        createDataConnection outcome minPort maxPort = PoolResult.error c) :=
  ⟨fun outcome minPort maxPort p h1 h2 h3 h4 =>
     createLoop_reaches_ready outcome maxPort p minPort h1 h2 h3 h4,
   fun outcome minPort maxPort h2 h3 =>
     createLoop_exhausts outcome maxPort minPort h2 h3,
   fun outcome minPort maxPort p c h1 h2 h3 h4 =>
     createLoop_surfaces_failure outcome maxPort p minPort c h1 h2 h3 h4⟩

/-- C7 witness: with ports 44001–44002 busy, the pool rests on 44003 of the
range 44001–44010; with every port busy it reports `EADDRINUSE`; with a
non-`EADDRINUSE` failure on the first free port, that error surfaces. -/
theorem c7_pool_port_scan_witness :
    (44001 ≤ 44003 ∧ 44003 ≤ 44010) ∧
    createDataConnection (busyBelow 44003) 44001 44010 = PoolResult.ok 44003 ∧
    createDataConnection (fun _ => PortOutcome.addrInUse) 44001 44010 =
      PoolResult.error "EADDRINUSE" ∧
    createDataConnection (busyThenFail 44002) 44001 44010 =
      PoolResult.error "EACCES" :=
  ⟨⟨by decide, by decide⟩,
   c7_pool_port_scan.1 (busyBelow 44003) 44001 44010 44003 (by decide)
     (by decide)
     (fun q hq1 hq2 => by simp [busyBelow, hq2])
     (by simp [busyBelow]),
   c7_pool_port_scan.2.1 (fun _ => PortOutcome.addrInUse) 44001 44010
     (by decide) (fun q hq1 hq2 => rfl),
   c7_pool_port_scan.2.2 (busyThenFail 44002) 44001 44010 44002 "EACCES"
     (by decide) (by decide)
     (fun q hq1 hq2 => by simp [busyThenFail, hq2])
     (by simp [busyThenFail])⟩

/-! Helper lemmas for the passive-data-connection wait timer. -/

theorem countEv_append (e x : PEvent) (l : List PEvent) :
    countEv e (l ++ [x]) = countEv e l + (if x = e then 1 else 0) := by
  induction l with
  | nil => simp [countEv]
  | cons hd tl ih => simp [countEv, ih]; omega

theorem pstep_deadline_none (c : PDC) (a : PAction)
    (h : c.timerDeadline = none) : (pstep c a).timerDeadline = none := by
  cases a with
  | fire t => simp [pstep, timerFire, h]
  | install sock =>
    cases hs : c.socket.isSome <;> simp [pstep, setSocket, hs, h]
  | destroy =>
    by_cases hs : c.state = ConnectionLifecycle.CLOSED <;>
      simp [pstep, destroyStep, closeStep, hs, h]

theorem pstep_timeout_count (c : PDC) (a : PAction)
    (h : c.timerDeadline = none) :
    countEv .errorTimeout (pstep c a).events =
      countEv .errorTimeout c.events := by
  cases a with
  | fire t => simp [pstep, timerFire, h]
  | install sock =>
    cases hs : c.socket.isSome <;>
      simp [pstep, setSocket, hs, countEv_append]
  | destroy =>
    by_cases hs : c.state = ConnectionLifecycle.CLOSED <;>
      simp [pstep, destroyStep, closeStep, hs, countEv_append]

theorem prun_timeout_count (acts : List PAction) : ∀ c : PDC,
    c.timerDeadline = none →
    countEv .errorTimeout (prun c acts).events =
      countEv .errorTimeout c.events := by
  induction acts with
  | nil => intro c _; rfl
  | cons a tl ih =>
    intro c h
    show countEv _ (prun (pstep c a) tl).events = _
    rw [ih (pstep c a) (pstep_deadline_none c a h), pstep_timeout_count c a h]

theorem pstep_closed_stable (c : PDC) (a : PAction)
    (h1 : c.state = ConnectionLifecycle.CLOSED)
    (h2 : c.timerDeadline = none) (h3 : isInstall a = false) :
    pstep c a = c := by
  cases a with
  | fire t => simp [pstep, timerFire, h2]
  | install sock => simp [isInstall] at h3
  | destroy => simp [pstep, destroyStep, closeStep, h1]

theorem prun_closed_stable (acts : List PAction) : ∀ c : PDC,
    c.state = ConnectionLifecycle.CLOSED → c.timerDeadline = none →
    (acts.all fun a => !isInstall a) = true → prun c acts = c := by
  induction acts with
  | nil => intro c _ _ _; rfl
  | cons a tl ih =>
    intro c h1 h2 h3
    rw [List.all_cons, Bool.and_eq_true] at h3
    obtain ⟨ha, htl⟩ := h3
    have ha2 : isInstall a = false := by
      cases hi : isInstall a
      · rfl
      · rw [hi] at ha; simp at ha
    show prun (pstep c a) tl = c
    rw [pstep_closed_stable c a h1 h2 ha2]
    exact ih c h1 h2 htl

theorem timerFire_newPDC (t : Nat) (h : WAIT_TIMEOUT ≤ t) :
    timerFire t newPDC =
      { state := .CLOSED, timerDeadline := none, socket := none,
        events := [.errorTimeout, .closeEvent] } := by
  simp [timerFire, newPDC, h, onErrorStep, closeStep]

/-- C8: starting from construction, if the wait timer fires (at any time at
least `WAIT_TIMEOUT = 9000` ms after construction, and it cannot fire
earlier), the connection emits the timeout `error` and reaches CLOSED with
`close` emitted — and emitted exactly once no matter what further timer or
destroy activity follows; installing a socket first clears the timer, so
no timeout error is ever emitted afterwards. -/
theorem c8_wait_timer :
    (∀ t, WAIT_TIMEOUT ≤ t →
        countEv .errorTimeout (prun newPDC [PAction.fire t]).events = 1 ∧
        (prun newPDC [PAction.fire t]).state = ConnectionLifecycle.CLOSED ∧
        countEv .closeEvent (prun newPDC [PAction.fire t]).events = 1) ∧
    (∀ t (acts : List PAction), WAIT_TIMEOUT ≤ t →
        (acts.all fun a => !isInstall a) = true →
        countEv .closeEvent
          (prun newPDC (PAction.fire t :: acts)).events = 1) ∧
    (∀ t, t < WAIT_TIMEOUT → pstep newPDC (PAction.fire t) = newPDC) ∧
    (∀ sock (acts : List PAction),
        countEv .errorTimeout
          (prun (pstep newPDC (PAction.install sock)) acts).events = 0) := by
  refine ⟨?_, ?_, ?_, ?_⟩
  · intro t h
    refine ⟨?_, ?_, ?_⟩ <;>
      simp [prun, pstep, timerFire_newPDC t h, countEv]
  · intro t acts h hni
    show countEv _ (prun (pstep newPDC (PAction.fire t)) acts).events = 1
    have hf : pstep newPDC (PAction.fire t) =
        { state := .CLOSED, timerDeadline := none, socket := none,
          events := [.errorTimeout, .closeEvent] } := timerFire_newPDC t h
    rw [hf, prun_closed_stable acts _ rfl rfl hni]
    simp [countEv]
  · intro t h
    have hn : ¬(WAIT_TIMEOUT ≤ t) := Nat.not_le.mpr h
    simp [pstep, timerFire, newPDC, hn]
  · intro sock acts
    have h0 : (pstep newPDC (PAction.install sock)).timerDeadline = none := by
      simp [pstep, setSocket, newPDC]
    rw [prun_timeout_count acts _ h0]
    simp [pstep, setSocket, newPDC, countEv]

/-- C8 witness: the timer firing exactly at 9000 ms (also followed by a
destroy and a late fire), a fire at 8999 ms doing nothing, and an
installed socket suppressing the timeout. -/
theorem c8_wait_timer_witness :
    WAIT_TIMEOUT ≤ 9000 ∧
    countEv .errorTimeout (prun newPDC [PAction.fire 9000]).events = 1 ∧
    countEv .closeEvent
      (prun newPDC
        [PAction.fire 9000, PAction.destroy, PAction.fire 10000]).events = 1 ∧
    pstep newPDC (PAction.fire 8999) = newPDC ∧
    countEv .errorTimeout
      (prun (pstep newPDC (PAction.install 5)) [PAction.fire 9000]).events = 0 :=
  ⟨by decide,
   (c8_wait_timer.1 9000 (by decide)).1,
   c8_wait_timer.2.1 9000 [PAction.destroy, PAction.fire 10000] (by decide)
     (by decide),
   c8_wait_timer.2.2.1 8999 (by decide),
   c8_wait_timer.2.2.2 5 [PAction.fire 9000]⟩

end NodeFtpd
